import Mathlib

/-!
Shallow embedding of the geographic-hierarchy core of the
neighborhood-simulacrum repository (`geo/models.py`, `indicators/errors.py`),
with theorems settling the frozen claims about it.

Python strings are modelled as `List Char` (`PyStr`); Python `None`-able
fields as `Option`; the Django ORM stores (`<Model>.objects`) as an explicit
`Db` environment holding, per concrete `AdminRegion` subclass, the list of its
records, together with the geometry oracle (`intersects`, `buffer`,
`transform`) that the GeoDjango layer provides.  Python exceptions that the
code can raise or catch (`IndexError` from `parts[1]`, `DoesNotExist` /
`MultipleObjectsReturned` from `objects.get`) are modelled with `Except`.
-/

namespace NeighborhoodSimulacrum

/-- Python strings modelled as lists of characters. -/
abbrev PyStr := List Char

/-- `str(x)` for an `Option`al string field: Python renders `None` as `"None"`
inside an f-string. -/
def pyOptStr : Option PyStr → PyStr
  | none => "None".toList
  | some s => s

/-- Python truthiness of an optional string (`None` and `""` are falsy). -/
def pyStrTruthy : Option PyStr → Bool
  | none => false
  | some s => !s.isEmpty

/-- `str.split(sep)` for a single-character separator, Python semantics:
splits at every occurrence of `sep`; the result is never empty
(`"".split(":") == [""]`). -/
def pySplit (sep : Char) : PyStr → List PyStr
  | [] => [[]]
  | c :: rest =>
    if c = sep then [] :: pySplit sep rest
    else
      match pySplit sep rest with
      | [] => [[c]]
      | h :: t => (c :: h) :: t

theorem pySplit_no_sep (sep : Char) : ∀ s : PyStr, sep ∉ s → pySplit sep s = [s] := by
  intro s
  induction s with
  | nil => intro _; rfl
  | cons c rest ih =>
    intro h
    have hc : c ≠ sep := fun hcs => h (hcs ▸ List.mem_cons_self c rest)
    have hrest : sep ∉ rest := fun hm => h (List.mem_cons_of_mem c hm)
    simp [pySplit, hc, ih hrest]

theorem pySplit_sep_append (sep : Char) :
    ∀ k g : PyStr, sep ∉ k → pySplit sep (k ++ sep :: g) = k :: pySplit sep g := by
  intro k
  induction k with
  | nil => intro g _; simp [pySplit]
  | cons c k' ih =>
    intro g h
    have hc : c ≠ sep := fun hcs => h (hcs ▸ List.mem_cons_self c k')
    have hk : sep ∉ k' := fun hm => h (List.mem_cons_of_mem c hm)
    simp [pySplit, hc, ih g hk]

/-- `str.lower()` (ASCII; the type tags involved are ASCII). -/
def pyLower (s : PyStr) : PyStr := s.map Char.toLower

/-- The concrete `AdminRegion` subclasses, in class-definition order
(the order `AdminRegion.__subclasses__()` reports them in). -/
inductive GeogClass
  | blockGroup
  | tract
  | countySubdivision
  | county
  | zcta
  | schoolDistrict
  | neighborhood
deriving DecidableEq, Repr

namespace GeogClass

/-- `geog_type_id` class attribute of each subclass. -/
def geog_type_id : GeogClass → PyStr
  | blockGroup => "blockGroup".toList
  | tract => "tract".toList
  | countySubdivision => "countySubdivision".toList
  | county => "county".toList
  | zcta => "zcta".toList
  | schoolDistrict => "schoolDistrict".toList
  | neighborhood => "neighborhood".toList

/-- `geog_type_title` class attribute of each subclass. -/
def geog_type_title : GeogClass → PyStr
  | blockGroup => "Block Group".toList
  | tract => "Tract".toList
  | countySubdivision => "County Subdivision".toList
  | county => "County".toList
  | zcta => "Zip Code".toList
  | schoolDistrict => "School District".toList
  | neighborhood => "Neighborhood".toList

end GeogClass

/-- One `AdminRegion` row, flattened over the polymorphic hierarchy: `cls` is
the concrete runtime subclass; the census fields (`geoid`, `statefp`,
`countyfp`, `tractce`, `blkgrpce`) are only meaningful for the census-backed
kinds that declare them. `Geom` is the geometry type, kept abstract. -/
structure RegionRecord (Geom : Type) where
  cls : GeogClass
  id : Nat
  name : PyStr
  slug : Option PyStr
  geog_type : Option PyStr
  display_name : Option PyStr
  global_geoid : Option PyStr
  geoid : PyStr
  statefp : PyStr
  countyfp : PyStr
  tractce : PyStr
  blkgrpce : PyStr
  geom : Geom
  geom_webmercator : Option Geom
deriving DecidableEq

/-- The environment the ORM / GeoDjango layer supplies: per-subclass record
stores and the geometry oracle.  `geomTruthy` is Python truthiness of a
geometry object (an absent geometry is falsy). -/
structure Db (Geom : Type) where
  regions : GeogClass → List (RegionRecord Geom)
  intersects : Geom → Geom → Bool
  buffer : Geom → ℚ → Geom
  transform : Geom → Int → Geom
  geomTruthy : Geom → Bool

/-- Python exceptions relevant to the modelled code. -/
inductive PyExc
  | indexError
  | doesNotExist
  | multipleObjectsReturned
deriving DecidableEq, Repr

/-- `l[i]` on a Python list: raises `IndexError` when out of range. -/
def listGet {α : Type} (l : List α) (i : Nat) : Except PyExc α :=
  match l.get? i with
  | some a => Except.ok a
  | none => Except.error PyExc.indexError

namespace AdminRegion

/-- `AdminRegion.COUNTY` constant. -/
def COUNTY : PyStr := "county".toList

/-- `AdminRegion.TRACT` constant. -/
def TRACT : PyStr := "tract".toList

/-- `AdminRegion.COUNTY_SUBDIVISION` constant. -/
def COUNTY_SUBDIVISION : PyStr := "countySubdivision".toList

/-- `AdminRegion.NEIGHBORHOOD` constant. -/
def NEIGHBORHOOD : PyStr := "neighborhood".toList

/-- `AdminRegion.__subclasses__()`, in class-definition order. -/
def subclasses : List GeogClass :=
  [.blockGroup, .tract, .countySubdivision, .county, .zcta, .schoolDistrict, .neighborhood]

/-- The registered type tags (the `geog_type_id` of every subclass). -/
def geog_type_ids : List PyStr := subclasses.map GeogClass.geog_type_id

/-- `AdminRegion.find_subclass(name)`: first a case-sensitive scan of the
subclasses, then a case-insensitive backup scan, else `None`. -/
def find_subclass (name : PyStr) : Option GeogClass :=
  match subclasses.find? (fun sc => sc.geog_type_id == name) with
  | some sc => some sc
  | none => subclasses.find? (fun sc => pyLower sc.geog_type_id == pyLower name)

end AdminRegion

namespace RegionRecord

variable {Geom : Type}

/-- The `uid` property: the f-string `f'{self.geog_type}:{self.global_geoid}'`. -/
def uid (r : RegionRecord Geom) : PyStr :=
  pyOptStr r.geog_type ++ ':' :: pyOptStr r.global_geoid

end RegionRecord

/-- The parsing half of `AdminRegion.from_uid`: split on `':'` and take
`parts[0]`, `parts[1]`; the `IndexError` on a missing `parts[1]` is caught
there and turned into `None`. -/
def parseUid (uid : PyStr) : Option (PyStr × PyStr) :=
  match pySplit ':' uid with
  | t :: g :: _ => some (t, g)
  | _ => none

/-- `<subclass>.objects.get(global_geoid=gid)`: raises `DoesNotExist` on no
match and `MultipleObjectsReturned` on several. -/
def dbGetByGlobalGeoid {Geom : Type} (db : Db Geom) (cls : GeogClass) (gid : PyStr) :
    Except PyExc (RegionRecord Geom) :=
  match (db.regions cls).filter (fun r => r.global_geoid == some gid) with
  | [r] => Except.ok r
  | [] => Except.error PyExc.doesNotExist
  | _ => Except.error PyExc.multipleObjectsReturned

/-- `<subclass>.objects.get(geoid=g)` (the hierarchy lookups). -/
def dbGetByGeoid {Geom : Type} (db : Db Geom) (cls : GeogClass) (g : PyStr) :
    Except PyExc (RegionRecord Geom) :=
  match (db.regions cls).filter (fun r => r.geoid == g) with
  | [r] => Except.ok r
  | [] => Except.error PyExc.doesNotExist
  | _ => Except.error PyExc.multipleObjectsReturned

namespace AdminRegion

variable {Geom : Type}

/-- Body of the `try:` block of `AdminRegion.from_uid`: any of the indexing
and lookup steps may raise; falling off the end returns `None`. -/
def from_uid_try (db : Db Geom) (uid : PyStr) : Except PyExc (Option (RegionRecord Geom)) := do
  let parts := pySplit ':' uid
  let geog_type_str ← listGet parts 0
  let geog_id ← listGet parts 1
  match find_subclass geog_type_str with
  | some gt => do
      let r ← dbGetByGlobalGeoid db gt geog_id
      return some r
  | none => return none

/-- `AdminRegion.from_uid(uid)`: the `except IndexError` handler prints
`'Malformed uid.'` (logging, not modelled) and returns `None`; other
exceptions (e.g. `DoesNotExist`) propagate to the caller. -/
def from_uid (db : Db Geom) (uid : PyStr) : Except PyExc (Option (RegionRecord Geom)) :=
  match from_uid_try db uid with
  | Except.error PyExc.indexError => Except.ok none
  | other => other

end AdminRegion

/-- One entry of an `overlap` result list: the dict
`{'name': g.name, 'slug': g.slug, 'id': g.id}`. -/
structure OverlapEntry where
  name : PyStr
  slug : Option PyStr
  id : Nat
deriving DecidableEq, Repr

namespace AdminRegion

variable {Geom : Type}

/-- The subclasses the `overlap` loop iterates over, in loop order
(`[County, CountySubdivision, Neighborhood, Tract]`). -/
def overlapSubclasses : List GeogClass :=
  [.county, .countySubdivision, .neighborhood, .tract]

/-- The `overlap` property: a dict (modelled as an association list in
insertion order) from each candidate subclass's `geog_type_id` to the list of
its records whose geometry intersects the subject's geometry buffered by
`-0.001`, except that a county subject maps every candidate to `[]`. -/
def overlap (db : Db Geom) (self : RegionRecord Geom) : List (PyStr × List OverlapEntry) :=
  overlapSubclasses.map (fun subclass =>
    if self.cls.geog_type_id == COUNTY then
      (subclass.geog_type_id, [])
    else
      (subclass.geog_type_id,
        ((db.regions subclass).filter
            (fun g => db.intersects g.geom (db.buffer self.geom (-(1/1000))))).map
          (fun g => OverlapEntry.mk g.name g.slug g.id)))

/-- The `hierarchy` property of each concrete subclass: the hard-coded
ancestor lookups (block group → `[county, tract]` by geoid prefix; tract and
county subdivision → `[county]`; the rest → `[]`).  The `Centroid`
annotation on the querysets only adds a read-only computed column and is not
modelled. -/
def hierarchy (db : Db Geom) (self : RegionRecord Geom) :
    Except PyExc (List (RegionRecord Geom)) :=
  match self.cls with
  | .blockGroup => do
      let c ← dbGetByGeoid db .county (self.statefp ++ self.countyfp)
      let t ← dbGetByGeoid db .tract (self.statefp ++ self.countyfp ++ self.tractce)
      return [c, t]
  | .tract => do
      let c ← dbGetByGeoid db .county (self.statefp ++ self.countyfp)
      return [c]
  | .countySubdivision => do
      let c ← dbGetByGeoid db .county (self.statefp ++ self.countyfp)
      return [c]
  | .county => Except.ok []
  | .zcta => Except.ok []
  | .schoolDistrict => Except.ok []
  | .neighborhood => Except.ok []

end AdminRegion

namespace RegionRecord

variable {Geom : Type}

/-- The `title` property of the concrete runtime subclass (every stored
region is an instance of one of the seven concrete kinds, each of which
overrides `title`). -/
def title (self : RegionRecord Geom) : PyStr :=
  match self.cls with
  | .blockGroup => "Block Group ".toList ++ self.geoid
  | .tract => "Tract ".toList ++ self.geoid
  | .countySubdivision => self.name
  | .county => self.name ++ " County".toList
  | .zcta => self.name
  | .schoolDistrict => "Zip code ".toList ++ self.name
  | .neighborhood => self.name

end RegionRecord

/-- Python `\s` whitespace (ASCII range; the inputs involved are ASCII). -/
def pyIsSpace (c : Char) : Bool :=
  c = ' ' || c = '\t' || c = '\n' || c = '\x0d' || c = '\x0b' || c = '\x0c'

/-- Collapse consecutive `'-'` characters into one (the effect of
`re.sub(r"[-\s]+", "-", v)` after every `[-\s]` character has been mapped
to `'-'`). -/
def collapseDashRuns : PyStr → PyStr
  | [] => []
  | [c] => [c]
  | a :: b :: rest =>
    if a = '-' && b = '-' then collapseDashRuns (b :: rest)
    else a :: collapseDashRuns (b :: rest)

/-- `str.strip(chars)`: drop leading and trailing characters drawn from
`chars`. -/
def pyStrip (chars : List Char) (s : PyStr) : PyStr :=
  ((s.dropWhile (fun c => chars.contains c)).reverse.dropWhile
      (fun c => chars.contains c)).reverse

/-- `django.utils.text.slugify` on ASCII input (where the NFKD/ASCII-encode
step is the identity): lower-case, drop characters that are not
`[a-z0-9_]`, whitespace or `'-'`, replace each maximal `[-\s]+` run by a
single `'-'`, and strip leading/trailing `'-'`/`'_'`. -/
def slugify (value : PyStr) : PyStr :=
  let kept := (pyLower value).filter
    (fun c => c.isAlphanum || c = '_' || pyIsSpace c || c = '-')
  pyStrip ['-', '_']
    (collapseDashRuns (kept.map (fun c => if pyIsSpace c || c = '-' then '-' else c)))

namespace AdminRegion

variable {Geom : Type}

/-- `AdminRegion.save` followed by `Geography.save` (the `super()` chain),
as a pure transform on the record: derive `slug` when falsy, derive
`geog_type` when falsy, overwrite `display_name` with `title`, then derive
`geom_webmercator` by `geom.transform(3857, clone=True)` when falsy. -/
def save (db : Db Geom) (self : RegionRecord Geom) : RegionRecord Geom :=
  let s1 :=
    if pyStrTruthy self.slug then self
    else { self with
      slug := some (slugify
        (self.cls.geog_type_title ++ '-' :: pyOptStr self.global_geoid)) }
  let s2 :=
    if pyStrTruthy s1.geog_type then s1
    else { s1 with geog_type := some s1.cls.geog_type_id }
  let s3 := { s2 with display_name := some s2.title }
  if (match s3.geom_webmercator with
      | none => false
      | some g => db.geomTruthy g) then s3
  else { s3 with geom_webmercator := some (db.transform s3.geom 3857) }

end AdminRegion

/-- Modelled from the spec: the `ErrorLevel` enumeration of
`indicators/utils.py` (not under `src/`), with the levels the spec names
(INFO / EMPTY / ERROR).  Python `Enum` members are truthy. -/
inductive ErrorLevel
  | INFO
  | EMPTY
  | ERROR
deriving DecidableEq, Repr

/-- Modelled from the spec: the `ErrorResponse` record of
`indicators/utils.py` (not under `src/`) — the spec's `ErrorReport`: a
`level` and a human-readable `message`. -/
structure ErrorResponse where
  level : ErrorLevel
  message : PyStr
deriving DecidableEq, Repr

/-- A constructed `DataRetrievalError` instance: its `message` and the
`level` the instance carries after `__init__`. -/
structure DataRetrievalError where
  message : PyStr
  level : ErrorLevel
deriving DecidableEq, Repr

namespace DataRetrievalError

/-- The class-level default `level` of `DataRetrievalError`. -/
def classLevel : ErrorLevel := ErrorLevel.ERROR

/-- `DataRetrievalError.__init__(self, message, level=None)`: stores the
message and overrides the class-level `level` when the argument is truthy
(`Enum` members are all truthy, so: when it is not `None`). -/
def init (clsLevel : ErrorLevel) (message : PyStr) (level : Option ErrorLevel) :
    DataRetrievalError :=
  { message := message
    level :=
      match level with
      | some l => l
      | none => clsLevel }

/-- The `error_response` property. -/
def error_response (e : DataRetrievalError) : ErrorResponse :=
  { level := e.level, message := e.message }

end DataRetrievalError

namespace AggregationError

/-- `AggregationError.level` class attribute. -/
def classLevel : ErrorLevel := ErrorLevel.EMPTY

/-- Constructing an `AggregationError` (inherits `__init__`). -/
def init (message : PyStr) (level : Option ErrorLevel) : DataRetrievalError :=
  DataRetrievalError.init classLevel message level

end AggregationError

namespace MissingSourceError

/-- `MissingSourceError.level` class attribute. -/
def classLevel : ErrorLevel := ErrorLevel.ERROR

/-- Constructing a `MissingSourceError` (inherits `__init__`). -/
def init (message : PyStr) (level : Option ErrorLevel) : DataRetrievalError :=
  DataRetrievalError.init classLevel message level

end MissingSourceError

/-! ### Concrete fixtures (for witnesses and counterexamples)

Geometry is instantiated at `Unit`: the geometry oracle below reports every
pair of geometries as intersecting, which is exactly the degenerate situation
several claims quantify over. -/

/-- Allegheny County as a `County` row. -/
def fixCounty : RegionRecord Unit where
  cls := .county
  id := 1
  name := "Allegheny".toList
  slug := some ("county-42003".toList)
  geog_type := some ("county".toList)
  display_name := some ("Allegheny County".toList)
  global_geoid := some ("42003".toList)
  geoid := "42003".toList
  statefp := "42".toList
  countyfp := "003".toList
  tractce := []
  blkgrpce := []
  geom := ()
  geom_webmercator := some ()

/-- A census tract row (geoid 42003140100), with no slug set yet. -/
def fixTract : RegionRecord Unit where
  cls := .tract
  id := 2
  name := "140100".toList
  slug := none
  geog_type := some ("tract".toList)
  display_name := none
  global_geoid := some ("42003140100".toList)
  geoid := "42003140100".toList
  statefp := "42".toList
  countyfp := "003".toList
  tractce := "140100".toList
  blkgrpce := []
  geom := ()
  geom_webmercator := none

/-- A block group row inside `fixTract`. -/
def fixBlockGroup : RegionRecord Unit where
  cls := .blockGroup
  id := 3
  name := "1401001".toList
  slug := none
  geog_type := some ("blockGroup".toList)
  display_name := none
  global_geoid := some ("420031401001".toList)
  geoid := "420031401001".toList
  statefp := "42".toList
  countyfp := "003".toList
  tractce := "140100".toList
  blkgrpce := "1".toList
  geom := ()
  geom_webmercator := none

/-- A tract row carrying a pre-existing (wrong) `geog_type` value. -/
def bogusTract : RegionRecord Unit :=
  { fixTract with id := 4, geog_type := some ("bogus".toList) }

/-- A tract row with no `slug`, no `geog_type`, no `display_name` and no
projected geometry. -/
def freshTract : RegionRecord Unit :=
  { fixTract with id := 5, geog_type := none }

/-- A concrete environment whose geometry oracle reports every intersection
test as true (every geometry trivially intersects everything, in particular
itself). -/
def fixDb : Db Unit where
  regions := fun cls =>
    match cls with
    | .county => [fixCounty]
    | .tract => [fixTract]
    | .blockGroup => [fixBlockGroup]
    | _ => []
  intersects := fun _ _ => true
  buffer := fun g _ => g
  transform := fun g _ => g
  geomTruthy := fun _ => true

/-- The store is well-formed: each subclass's store holds records of that
subclass (in Django, `<Model>.objects` only ever yields `<Model>` rows). -/
def Db.wf {Geom : Type} (db : Db Geom) : Prop :=
  ∀ cls : GeogClass, ∀ r ∈ db.regions cls, r.cls = cls

/-! ### Theorems -/

theorem pyStrTruthy_isSome {o : Option PyStr} (h : pyStrTruthy o = true) :
    o.isSome = true := by
  cases o with
  | none => simp [pyStrTruthy] at h
  | some s => rfl

theorem dbGetByGeoid_mem {Geom : Type} {db : Db Geom} {cls : GeogClass} {g : PyStr}
    {r : RegionRecord Geom} (h : dbGetByGeoid db cls g = Except.ok r) :
    r ∈ db.regions cls := by
  unfold dbGetByGeoid at h
  split at h
  next heq =>
    cases h
    exact List.mem_of_mem_filter (by rw [heq]; exact List.mem_cons_self r [])
  next => cases h
  next => cases h

theorem fixDb_wf : Db.wf fixDb := by
  intro cls r hr
  cases cls <;> simp [fixDb] at hr <;> subst hr <;> rfl

/-- C1: for a region record whose `geog_type` is a registered kind tag and
whose `global_geoid` contains no `':'` (every valid geoid is colon-free),
parsing the built uid returns exactly the pair
`(record.geog_type, record.global_geoid)`. -/
theorem uid_roundtrip {Geom : Type} (r : RegionRecord Geom) (k g : PyStr)
    (hk : r.geog_type = some k) (hreg : k ∈ AdminRegion.geog_type_ids)
    (hg : r.global_geoid = some g) (hgc : ':' ∉ g) :
    parseUid r.uid = some (k, g) := by
  have hknc : ':' ∉ k := by
    simp [AdminRegion.geog_type_ids, AdminRegion.subclasses,
      GeogClass.geog_type_id] at hreg
    rcases hreg with h | h | h | h | h | h | h <;> subst h <;> decide
  have hsplit : pySplit ':' (k ++ ':' :: g) = [k, g] := by
    rw [pySplit_sep_append ':' k g hknc, pySplit_no_sep ':' g hgc]
  simp [parseUid, RegionRecord.uid, hk, hg, pyOptStr, hsplit]

/-- Witness for C1 at the concrete tract fixture. -/
theorem uid_roundtrip_witness :
    parseUid fixTract.uid = some ("tract".toList, "42003140100".toList) :=
  uid_roundtrip fixTract ("tract".toList) ("42003140100".toList)
    rfl (by decide) rfl (by decide)

/-- C5: `find_subclass` resolves a type tag by a case-sensitive exact match
against the registered kind tags first, falls back to a case-insensitive
match, and returns `none` when no tag matches even case-insensitively; in
particular `"Tract"` and `"tract"` both resolve to the `Tract` subclass while
`"TRACT_TYPO"` resolves to not-found. -/
theorem find_subclass_resolution :
    (∀ name : PyStr,
        (∃ sc ∈ AdminRegion.subclasses, sc.geog_type_id = name) →
        ∃ sc, AdminRegion.find_subclass name = some sc ∧ sc.geog_type_id = name) ∧
    (∀ name : PyStr,
        (∀ sc ∈ AdminRegion.subclasses, pyLower sc.geog_type_id ≠ pyLower name) →
        AdminRegion.find_subclass name = none) ∧
    AdminRegion.find_subclass ("Tract".toList) = some GeogClass.tract ∧
    AdminRegion.find_subclass ("tract".toList) = some GeogClass.tract ∧
    AdminRegion.find_subclass ("TRACT_TYPO".toList) = none := by
  refine ⟨?_, ?_, by decide, by decide, by decide⟩
  · rintro name ⟨sc, hmem, hid⟩
    subst hid
    cases sc
    · exact ⟨.blockGroup, by decide, rfl⟩
    · exact ⟨.tract, by decide, rfl⟩
    · exact ⟨.countySubdivision, by decide, rfl⟩
    · exact ⟨.county, by decide, rfl⟩
    · exact ⟨.zcta, by decide, rfl⟩
    · exact ⟨.schoolDistrict, by decide, rfl⟩
    · exact ⟨.neighborhood, by decide, rfl⟩
  · intro name h
    have h1 : AdminRegion.subclasses.find? (fun sc => sc.geog_type_id == name) = none := by
      rw [List.find?_eq_none]
      intro sc hsc
      simp only [beq_iff_eq]
      intro heq
      exact h sc hsc (by rw [heq])
    have h2 : AdminRegion.subclasses.find?
        (fun sc => pyLower sc.geog_type_id == pyLower name) = none := by
      rw [List.find?_eq_none]
      intro sc hsc
      simp only [beq_iff_eq]
      exact h sc hsc
    simp [AdminRegion.find_subclass, h1, h2]

/-- Witness for C5: the exact-match branch at `"tract"`. -/
theorem find_subclass_resolution_witness :
    ∃ sc, AdminRegion.find_subclass ("tract".toList) = some sc ∧
      sc.geog_type_id = "tract".toList :=
  find_subclass_resolution.1 ("tract".toList) ⟨GeogClass.tract, by decide, by decide⟩

/-- C7: for a uid with no `':'` separator, `from_uid` raises nothing to the
caller: the `IndexError` from `parts[1]` is caught (the code logs
`'Malformed uid.'`) and `None` is returned. -/
theorem from_uid_malformed_none {Geom : Type} (db : Db Geom) (uid : PyStr)
    (h : ':' ∉ uid) : AdminRegion.from_uid db uid = Except.ok none := by
  have hs : pySplit ':' uid = [uid] := pySplit_no_sep ':' uid h
  simp [AdminRegion.from_uid, AdminRegion.from_uid_try, hs, listGet, List.get?,
    Bind.bind, Except.bind]

/-- Witness for C7 at a concrete malformed uid. -/
theorem from_uid_malformed_none_witness :
    AdminRegion.from_uid fixDb ("nocolonhere".toList) = Except.ok none :=
  from_uid_malformed_none fixDb ("nocolonhere".toList) (by decide)

/-- C6: an `AggregationError` converts to an error response with level EMPTY
and a `MissingSourceError` to one with level ERROR, both preserving the
message unchanged. -/
theorem error_levels_preserved (msg : PyStr) :
    (AggregationError.init msg none).error_response =
      ErrorResponse.mk ErrorLevel.EMPTY msg ∧
    (MissingSourceError.init msg none).error_response =
      ErrorResponse.mk ErrorLevel.ERROR msg :=
  ⟨rfl, rfl⟩

/-- C10: an explicit (non-`None`) `level` argument overrides the subclass's
fixed severity for both subclasses, and the fixed defaults EMPTY / ERROR
apply exactly when no level is passed. -/
theorem error_level_override (msg : PyStr) (l : ErrorLevel) :
    (AggregationError.init msg (some l)).error_response = ErrorResponse.mk l msg ∧
    (MissingSourceError.init msg (some l)).error_response = ErrorResponse.mk l msg ∧
    (AggregationError.init msg none).level = ErrorLevel.EMPTY ∧
    (MissingSourceError.init msg none).level = ErrorLevel.ERROR :=
  ⟨rfl, rfl, rfl, rfl⟩

/-- C3: for a county subject, `overlap` maps each of the four candidate kinds
(in loop order county, county subdivision, neighborhood, tract) to an empty
list; the result is this fixed constant for every environment `db`, i.e. it
is independent of the intersection oracle and no intersection query
influences it. -/
theorem overlap_county_empty {Geom : Type} (db : Db Geom) (self : RegionRecord Geom)
    (h : self.cls = GeogClass.county) :
    AdminRegion.overlap db self =
      [(AdminRegion.COUNTY, []), (AdminRegion.COUNTY_SUBDIVISION, []),
       (AdminRegion.NEIGHBORHOOD, []), (AdminRegion.TRACT, [])] := by
  simp [AdminRegion.overlap, AdminRegion.overlapSubclasses, h,
    GeogClass.geog_type_id, AdminRegion.COUNTY, AdminRegion.COUNTY_SUBDIVISION,
    AdminRegion.NEIGHBORHOOD, AdminRegion.TRACT]

/-- Witness for C3 at the county fixture, in an environment whose oracle
reports every geometry pair as intersecting and whose tract store is
non-empty. -/
theorem overlap_county_empty_witness :
    AdminRegion.overlap fixDb fixCounty =
      [(AdminRegion.COUNTY, []), (AdminRegion.COUNTY_SUBDIVISION, []),
       (AdminRegion.NEIGHBORHOOD, []), (AdminRegion.TRACT, [])] :=
  overlap_county_empty fixDb fixCounty rfl

/-- C4 counterexample: for the stored tract fixture, whose geometry
(trivially, under the all-true oracle) intersects its own inward-buffered
geometry, the list `overlap` returns under the tract's own kind tag contains
the entry `{'name', 'slug', 'id'}` of the region itself — refuting the claim
that a non-county region's own-kind list never contains the region itself. -/
theorem overlap_self_member_counterexample :
    fixTract.cls ≠ GeogClass.county ∧
    (AdminRegion.overlap fixDb fixTract).lookup GeogClass.tract.geog_type_id =
      some [OverlapEntry.mk fixTract.name fixTract.slug fixTract.id] ∧
    OverlapEntry.mk fixTract.name fixTract.slug fixTract.id ∈
      [OverlapEntry.mk fixTract.name fixTract.slug fixTract.id] := by
  refine ⟨by decide, ?_, List.mem_cons_self _ _⟩
  decide

/-- C4 amended: for a non-county region of one of the overlap candidate
kinds that is present in its kind's store, the list under the region's own
kind tag contains the region's own entry whenever the region's geometry
intersects its own geometry buffered by `-0.001` (the query does not exclude
the subject region). -/
theorem overlap_contains_self {Geom : Type} (db : Db Geom) (self : RegionRecord Geom)
    (hmem : self.cls ∈ AdminRegion.overlapSubclasses)
    (hnc : self.cls ≠ GeogClass.county)
    (hstore : self ∈ db.regions self.cls)
    (hint : db.intersects self.geom (db.buffer self.geom (-(1/1000))) = true) :
    ∃ lst, (self.cls.geog_type_id, lst) ∈ AdminRegion.overlap db self ∧
      OverlapEntry.mk self.name self.slug self.id ∈ lst := by
  have hfalse : (self.cls.geog_type_id == AdminRegion.COUNTY) = false := by
    cases hcls : self.cls
    case county => exact absurd hcls hnc
    all_goals decide
  refine ⟨((db.regions self.cls).filter
      (fun g => db.intersects g.geom (db.buffer self.geom (-(1/1000))))).map
      (fun g => OverlapEntry.mk g.name g.slug g.id), ?_, ?_⟩
  · simp only [AdminRegion.overlap, hfalse, Bool.false_eq_true, if_false]
    exact List.mem_map_of_mem _ hmem
  · exact List.mem_map_of_mem _ (List.mem_filter.2 ⟨hstore, hint⟩)

/-- Witness for C4's amended statement at the tract fixture. -/
theorem overlap_contains_self_witness :
    ∃ lst, (fixTract.cls.geog_type_id, lst) ∈ AdminRegion.overlap fixDb fixTract ∧
      OverlapEntry.mk fixTract.name fixTract.slug fixTract.id ∈ lst :=
  overlap_contains_self fixDb fixTract (by decide) (by decide) (by decide) (by decide)

/-- C2: over any well-formed store, a block group's hierarchy (when its
lookups succeed) is a length-2 chain ordered [county, tract]; a tract's is
[county]; and the terminal kinds county, zcta, school district and
neighborhood return the empty chain unconditionally. -/
theorem hierarchy_fixed_chains {Geom : Type} (db : Db Geom) (hwf : Db.wf db)
    (self : RegionRecord Geom) :
    (self.cls = GeogClass.blockGroup →
      ∀ l, AdminRegion.hierarchy db self = Except.ok l →
        l.map RegionRecord.cls = [GeogClass.county, GeogClass.tract]) ∧
    (self.cls = GeogClass.tract →
      ∀ l, AdminRegion.hierarchy db self = Except.ok l →
        l.map RegionRecord.cls = [GeogClass.county]) ∧
    (self.cls = GeogClass.county ∨ self.cls = GeogClass.zcta ∨
        self.cls = GeogClass.schoolDistrict ∨ self.cls = GeogClass.neighborhood →
      AdminRegion.hierarchy db self = Except.ok []) := by
  refine ⟨?_, ?_, ?_⟩
  · intro h l hok
    unfold AdminRegion.hierarchy at hok
    rw [h] at hok
    cases hc : dbGetByGeoid db .county (self.statefp ++ self.countyfp) with
    | error e => rw [hc] at hok; cases hok
    | ok c =>
      rw [hc] at hok
      cases ht : dbGetByGeoid db .tract (self.statefp ++ self.countyfp ++ self.tractce) with
      | error e => rw [ht] at hok; cases hok
      | ok t =>
        rw [ht] at hok
        cases hok
        simp [hwf .county c (dbGetByGeoid_mem hc), hwf .tract t (dbGetByGeoid_mem ht)]
  · intro h l hok
    unfold AdminRegion.hierarchy at hok
    rw [h] at hok
    cases hc : dbGetByGeoid db .county (self.statefp ++ self.countyfp) with
    | error e => rw [hc] at hok; cases hok
    | ok c =>
      rw [hc] at hok
      cases hok
      simp [hwf .county c (dbGetByGeoid_mem hc)]
  · intro h
    unfold AdminRegion.hierarchy
    rcases h with h | h | h | h <;> rw [h]

/-- Witness for C2 at the block-group fixture over the concrete store. -/
theorem hierarchy_fixed_chains_witness :
    [fixCounty, fixTract].map RegionRecord.cls = [GeogClass.county, GeogClass.tract] :=
  (hierarchy_fixed_chains fixDb fixDb_wf fixBlockGroup).1 rfl
    [fixCounty, fixTract] rfl

theorem save_slug_eq {Geom : Type} (db : Db Geom) (r : RegionRecord Geom) :
    (AdminRegion.save db r).slug =
      if pyStrTruthy r.slug then r.slug
      else some (slugify (r.cls.geog_type_title ++ '-' :: pyOptStr r.global_geoid)) := by
  unfold AdminRegion.save
  cases h1 : pyStrTruthy r.slug <;>
    cases h2 : pyStrTruthy r.geog_type <;>
      simp [h1, h2, apply_ite RegionRecord.slug]

theorem save_geog_type_eq {Geom : Type} (db : Db Geom) (r : RegionRecord Geom) :
    (AdminRegion.save db r).geog_type =
      if pyStrTruthy r.geog_type then r.geog_type
      else some r.cls.geog_type_id := by
  unfold AdminRegion.save
  cases h1 : pyStrTruthy r.slug <;>
    cases h2 : pyStrTruthy r.geog_type <;>
      simp [h1, h2, apply_ite RegionRecord.geog_type]

theorem save_display_name_eq {Geom : Type} (db : Db Geom) (r : RegionRecord Geom) :
    (AdminRegion.save db r).display_name = some r.title := by
  unfold AdminRegion.save
  cases h1 : pyStrTruthy r.slug <;>
    cases h2 : pyStrTruthy r.geog_type <;>
      simp [h1, h2, apply_ite RegionRecord.display_name, RegionRecord.title]

theorem save_webmercator_eq {Geom : Type} (db : Db Geom) (r : RegionRecord Geom) :
    (AdminRegion.save db r).geom_webmercator =
      if (match r.geom_webmercator with
          | none => false
          | some g => db.geomTruthy g) then r.geom_webmercator
      else some (db.transform r.geom 3857) := by
  unfold AdminRegion.save
  cases h1 : pyStrTruthy r.slug <;>
    cases h2 : pyStrTruthy r.geog_type <;>
      cases h3 : r.geom_webmercator <;>
        simp [h1, h2, h3, apply_ite RegionRecord.geom_webmercator]

/-- C8 counterexample: saving the tract fixture that carries a pre-existing
`geog_type` value `"bogus"` leaves that value in place, so after the save
`geog_type` differs from the kind's registered type tag `"tract"` — refuting
the claim that after every successful save `geog_type` equals the kind's
registered tag. -/
theorem save_geog_type_counterexample :
    (AdminRegion.save fixDb bogusTract).geog_type = some ("bogus".toList) ∧
    bogusTract.cls.geog_type_id = "tract".toList ∧
    ("bogus".toList : PyStr) ≠ "tract".toList := by
  refine ⟨?_, by decide, by decide⟩
  rw [save_geog_type_eq]
  decide

/-- C8 amended: after every save, `slug` and `display_name` are non-null
(`slug` derived from the kind title and `global_geoid` when it was absent,
`display_name` from the kind's title rule), `geog_type` is set to the kind's
registered type tag when it was absent — a pre-existing non-empty value is
preserved unchanged — and the projected geometry is present, derived from the
primary geometry by the fixed SRID-3857 transform when it was not supplied. -/
theorem save_derived_fields {Geom : Type} (db : Db Geom) (r : RegionRecord Geom) :
    ((AdminRegion.save db r).slug).isSome = true ∧
    (pyStrTruthy r.slug = false →
      (AdminRegion.save db r).slug =
        some (slugify (r.cls.geog_type_title ++ '-' :: pyOptStr r.global_geoid))) ∧
    (AdminRegion.save db r).display_name = some r.title ∧
    (pyStrTruthy r.geog_type = false →
      (AdminRegion.save db r).geog_type = some r.cls.geog_type_id) ∧
    (pyStrTruthy r.geog_type = true →
      (AdminRegion.save db r).geog_type = r.geog_type) ∧
    ((AdminRegion.save db r).geom_webmercator).isSome = true ∧
    ((match r.geom_webmercator with
        | none => false
        | some g => db.geomTruthy g) = false →
      (AdminRegion.save db r).geom_webmercator = some (db.transform r.geom 3857)) := by
  refine ⟨?_, ?_, save_display_name_eq db r, ?_, ?_, ?_, ?_⟩
  · rw [save_slug_eq]
    cases h : pyStrTruthy r.slug
    · simp
    · simpa using pyStrTruthy_isSome h
  · intro h; rw [save_slug_eq, h]; simp
  · intro h; rw [save_geog_type_eq, h]; simp
  · intro h; rw [save_geog_type_eq, h]; simp
  · rw [save_webmercator_eq]
    cases h3 : r.geom_webmercator with
    | none => simp
    | some g => cases hg : db.geomTruthy g <;> simp [hg]
  · intro h; rw [save_webmercator_eq, h]; simp

/-- Witness for C8's amended statement: saving the fresh tract (no slug, no
geog_type, no projected geometry) derives all three. -/
theorem save_derived_fields_witness :
    (AdminRegion.save fixDb freshTract).slug =
      some (slugify (freshTract.cls.geog_type_title ++
        '-' :: pyOptStr freshTract.global_geoid)) ∧
    (AdminRegion.save fixDb freshTract).geog_type =
      some freshTract.cls.geog_type_id ∧
    (AdminRegion.save fixDb freshTract).geom_webmercator =
      some (fixDb.transform freshTract.geom 3857) :=
  ⟨(save_derived_fields fixDb freshTract).2.1 (by decide),
   (save_derived_fields fixDb freshTract).2.2.2.1 (by decide),
   (save_derived_fields fixDb freshTract).2.2.2.2.2.2 (by decide)⟩

/-- C9: saving a tract record with `global_geoid = "42003140100"` and no
explicit slug derives the slug `"tract-42003140100"` (the `typeTitle`
`"Tract"` and the geoid, hyphen-joined and slugified to lower case). -/
theorem save_slug_derivation {Geom : Type} (db : Db Geom) (r : RegionRecord Geom)
    (hcls : r.cls = GeogClass.tract) (hslug : r.slug = none)
    (hgid : r.global_geoid = some ("42003140100".toList)) :
    (AdminRegion.save db r).slug = some ("tract-42003140100".toList) := by
  rw [save_slug_eq, hslug, hcls, hgid]
  simp [pyStrTruthy, pyOptStr]
  decide

/-- Witness for C9 at the tract fixture. -/
theorem save_slug_derivation_witness :
    (AdminRegion.save fixDb fixTract).slug = some ("tract-42003140100".toList) :=
  save_slug_derivation fixDb fixTract rfl rfl rfl

end NeighborhoodSimulacrum
